import Mathlib

/-!
Shallow embedding of the Bondy chat backend (src/main.py and
src/database/database.py) and proofs about its specification claims.

Conventions of the embedding:
* Python strings are Lean `String`s; the handful of string operations the
  source uses (`split`, `startswith`, `in`, slicing off the query part) are
  embedded as executable functions on `List Char` mirroring Python semantics.
* The mutable module-level state (`_is_alive`, `_is_active`, the
  `group_conditions` dictionary, the SQL database) is threaded explicitly
  through a `ServerState` value.
* Blocking waits are modelled by an oracle in `Env` that says whether/which
  notification arrived during the wait window, plus a `waitBound` field in the
  result recording the upper bound of time the handler may block (0 when the
  code path performs no blocking call, 25 when it calls `wait(timeout=25)`).
* Calls to `notify_clients_of_state_change` are recorded as `Wake` effects
  (`Wake.all` for a broker-wide notify, `Wake.group g` for a single group);
  `wokenGroups` interprets an effect against the registry, mirroring how the
  source skips groups that have no condition variable registered.
* bcrypt hashing/checking and wall-clock timestamps are external
  collaborators; they appear as opaque-to-the-model function parameters in
  `Env` (hashing) and are omitted from message records (timestamps).
-/

namespace Bondy

/-! ## Python string helpers -/

/-- Python `s.split(c)` on character lists: splits at every occurrence of `c`,
keeping empty pieces; the result is always non-empty (`"".split(c) == [""]`). -/
def splitChar (c : Char) : List Char → List (List Char)
  | [] => [[]]
  | x :: xs =>
    let r := splitChar c xs
    if x = c then [] :: r
    else (x :: r.headD []) :: r.tail

/-- Python `s.startswith(p)`. -/
def strStartsWith (s p : String) : Bool :=
  p.data.isPrefixOf s.data

/-- Python `s.split(c, 1)[1]` when `c` occurs in `s` (and `[]` when it does
not); used for `param.split('=', 1)[1]`. -/
def afterFirstChar (c : Char) : List Char → List Char
  | [] => []
  | x :: xs => if x = c then xs else afterFirstChar c xs

/-- Substring test (Python `sub in s` / SQL `LIKE %sub%` core). -/
def subOccurs (sub : List Char) : List Char → Bool
  | [] => sub.isEmpty
  | x :: xs => sub.isPrefixOf (x :: xs) || subOccurs sub xs

/-- Python `path.split('?')[0]`: the base path used by the middleware. -/
def basePath (path : String) : String :=
  ⟨(splitChar '?' path.data).headD []⟩

/-- Extraction of one query parameter, mirroring the repeated source pattern:
`if '?' in path: for param in path.split('?',1)[1].split('&'):
if param.startswith(key + '='): value = param.split('=',1)[1]; break`. -/
def findQueryParam (path key : String) : Option String :=
  match splitChar '?' path.data with
  | [] => none
  | [_] => none
  | _ :: rest =>
    let q := List.intercalate ['?'] rest
    ((splitChar '&' q).find? (fun p => (key.data ++ ['=']).isPrefixOf p)).map
      (fun p => (⟨afterFirstChar '=' p⟩ : String))

/-! ## SyncManager (src/main.py lines 121-167)

One tick of `SyncManager.run`'s loop body.  The peer query outcome is
`some peerActive` when `requests.get(...)` succeeded with a 2xx status and
`peer_status.get('active') == True` evaluated to `peerActive`, and `none`
when a `requests.exceptions.RequestException` was raised (network error,
non-2xx via `raise_for_status`, timeout).  The function returns the value of
`_is_active` after the tick. -/

def syncTick (isMePrimary alive active : Bool) (peer : Option Bool) : Bool :=
  if alive then
    match peer with
    | some peerActive =>
      if peerActive then
        if active then (if !isMePrimary then false else active) else active
      else
        if !active then true else active
    | none => if !active then true else active
  else
    if active then false else active

/-- Transition function written from the words of claim C1 / spec section 4.6
(a second definition, for refinement comparison against `syncTick`). -/
def syncTickClaim (isMePrimary alive active : Bool) (peer : Option Bool) : Bool :=
  if !alive && active then false
  else if alive && peer == some true && active && !isMePrimary then false
  else if alive && peer == some false && !active then true
  else if alive && peer == none && !active then true
  else active

/-! ## JSON values

The source builds Python dicts/lists and serializes them with `json.dumps`;
responses are modelled as structured values rather than serialized text. -/

inductive JVal where
  | s : String → JVal
  | n : Nat → JVal
  | b : Bool → JVal
  | arr : List JVal → JVal
  | obj : List (String × JVal) → JVal

/-- Python `body[k]` / `k in body` on a parsed JSON dict (`none` when the key
is absent or the value is not a dict). -/
def JVal.getField : JVal → String → Option JVal
  | JVal.obj kvs, k => kvs.lookup k
  | _, _ => none

def errObj (m : String) : JVal := JVal.obj [("error", JVal.s m)]

def msgObj (m : String) : JVal := JVal.obj [("message", JVal.s m)]

/-- Coercion of a JSON value used where the source stores it as text. -/
def jvalToStr : JVal → String
  | JVal.s s => s
  | _ => ""

/-- SQL-level comparison `IntColumn == value` where `value` comes from JSON:
the database layer coerces numeric strings, so both `7` and `"7"` match the
integer id `7`. -/
def jvalIdMatch : JVal → Nat → Bool
  | JVal.n m, k => m == k
  | JVal.s s, k => toString k == s
  | _, _ => false

/-- SQL comparison `StringColumn == value` for a JSON value. -/
def jvalStrMatch : JVal → String → Bool
  | JVal.s s, name => s == name
  | _, _ => false

/-- SQL comparison `IntColumn == value` for a query-string value (the route
handlers pass raw query parameter strings straight into `User.id == ...`). -/
def natMatchesStr (n : Nat) (s : String) : Bool :=
  toString n == s

/-! ## Database model (src/database/database.py)

Relational rows for users, groups, messages and the user-group association
table.  Timestamps are not modelled; ids are generated from per-table
counters standing for the SQL autoincrement primary keys. -/

structure DBUser where
  id : Nat
  username : String
  passwordHash : String

structure GroupRec where
  id : Nat
  name : String

structure MessageRec where
  id : Nat
  senderId : Nat
  groupId : Nat
  content : String

structure DB where
  users : List DBUser
  groups : List GroupRec
  memberships : List (Nat × Nat)
  messages : List MessageRec
  nextUserId : Nat
  nextGroupId : Nat
  nextMsgId : Nat

/-- Relation `user.groups` through the association table. -/
def userGroupRecs (db : DB) (u : DBUser) : List GroupRec :=
  db.groups.filter (fun g => db.memberships.contains (u.id, g.id))

/-- Relation `group.members` through the association table. -/
def groupMemberRecs (db : DB) (g : GroupRec) : List DBUser :=
  db.users.filter (fun u => db.memberships.contains (u.id, g.id))

/-- Lookup of `m.sender.username` (foreign keys guarantee the sender exists; a missing
sender yields the empty string in the model). -/
def senderName (db : DB) (m : MessageRec) : String :=
  match db.users.find? (fun u => u.id == m.senderId) with
  | some u => u.username
  | none => ""

/-! ## System state and notification effects (src/main.py lines 10-104) -/

structure SysState where
  alive : Bool
  active : Bool
deriving DecidableEq

/-- One call to `notify_clients_of_state_change`: `Wake.all` for the
`group_name=None` broker-wide form, `Wake.group g` for a targeted notify. -/
inductive Wake where
  | group : String → Wake
  | all : Wake
deriving DecidableEq

/-- Interpretation of a recorded effect: `notify_clients_of_state_change` inspects the registry but never modifies
it; this interprets a recorded `Wake` effect as the set of groups whose
condition variable receives `notify_all`.  A targeted notify for a group with
no registered condition variable wakes nobody. -/
def wokenGroups (registry : List String) : Wake → List String
  | Wake.group g => if g ∈ registry then [g] else []
  | Wake.all => registry

/-- Setter `set_is_alive` (lines 62-70): assign, then compare old vs new and notify
all groups only on a change. -/
def setIsAlive (s : SysState) (v : Bool) : SysState × List Wake :=
  ({ s with alive := v }, if s.alive = v then [] else [Wake.all])

/-- Setter `set_is_active` (lines 77-86). -/
def setIsActive (s : SysState) (v : Bool) : SysState × List Wake :=
  ({ s with active := v }, if s.active = v then [] else [Wake.all])

/-- Registration `get_or_create_group_condition` (lines 26-34): the registry is the set of
keys of the `group_conditions` dictionary, in insertion order. -/
def getOrCreateGroupCondition (registry : List String) (g : String) : List String :=
  if g ∈ registry then registry else registry ++ [g]

/-- Broadcast `notify_clients_of_state_change` (lines 88-104) as a registry operation:
it returns the (unchanged) registry together with the woken groups. -/
def notifyClientsOfStateChange (registry : List String) (target : Option String) :
    List String × List String :=
  match target with
  | some g => (registry, wokenGroups registry (Wake.group g))
  | none => (registry, wokenGroups registry Wake.all)

/-! ## Server state, environment, requests, outcomes -/

structure ServerState where
  sys : SysState
  registry : List String
  db : DB

/-- External collaborators and wait oracles:
`checkpw`/`hashpw` stand for bcrypt; `statusWait` is whether the single-group
wait in `/subscribe/status` was notified within its window; `userWait` is the
group (if any) whose notification arrived during a `/subscribe/user` wait. -/
structure Env where
  checkpw : String → String → Bool
  hashpw : String → String
  statusWait : Bool
  userWait : Option String

structure Request where
  method : String
  path : String
  body : Option JVal

/-- Result of handling one request: the new server state, the HTTP status
and body, the sequence of `notify_clients_of_state_change` calls made, and
an upper bound (seconds) on how long the handler may have blocked. -/
structure Outcome where
  state : ServerState
  status : Nat
  body : Option JVal
  wakes : List Wake
  waitBound : Nat

/-! ## HTTP status table and response formatting (src/main.py 174-294) -/

def HTTP_STATUS_CODES : List (Nat × String) :=
  [(200, "OK"), (400, "Bad Request"), (404, "Not Found"),
   (500, "Internal Server Error"), (503, "Service Unavailable"),
   (204, "No Content")]

/-- Python `HTTP_STATUS_CODES.get(status_code, "Unknown Status")`. -/
def statusMessage (code : Nat) : String :=
  (HTTP_STATUS_CODES.lookup code).getD "Unknown Status"

/-- The status line built by `format_http_response`. -/
def statusLine (code : Nat) : String :=
  "HTTP/1.1 " ++ toString code ++ " " ++ statusMessage code

/-! ## Access middleware (src/main.py lines 333-375) -/

def alwaysAllowedPaths : List String := ["/health", "/fall", "/revive"]

def activeRequiredPaths : List String :=
  ["/groups", "/users", "/login", "/chats", "/messages", "/group-users", "/create-chat"]

def activeRequiredPatterns : List String :=
  ["/subscribe/status", "/subscribe/user", "/notify/", "/user/"]

/-- The non-whitelisted part of the allow check: `base_path in
active_required_paths` or one of the `active_required_patterns` is a prefix
of it. -/
def middlewareKnownRoute (path : String) : Bool :=
  let bp := basePath path
  if bp ∈ activeRequiredPaths then true
  else activeRequiredPatterns.any (fun pat => strStartsWith bp pat)

/-- Flag `is_allowed_by_middleware` as computed at lines 347-362. -/
def isAllowedByMiddleware (sys : SysState) (path : String) : Bool :=
  if basePath path ∈ alwaysAllowedPaths then true
  else if sys.alive && sys.active then middlewareKnownRoute path
  else false

/-- The early-return of lines 364-375: `some (status, body)` when the request
is blocked before any route handler runs, `none` when routing proceeds. -/
def middlewareResponse (sys : SysState) (method path : String) : Option (Nat × JVal) :=
  if !(isAllowedByMiddleware sys path) && method != "OPTIONS" then
    if !sys.alive then
      some (503, errObj "system not available - not alive")
    else if !sys.active then
      some (503, errObj "system not available - not active")
    else
      some (404, errObj "Not Found")
  else none

/-! ## Route handlers (src/main.py lines 377-915)

Each handler returns what the corresponding branch of `handle_client`
computes; database-writing handlers also return the new database, and
notifying handlers return the recorded `Wake` effects. -/

/-- POST `/login` (lines 381-406). -/
def postLogin (env : Env) (db : DB) (body : Option JVal) : Nat × JVal :=
  match body with
  | none => (400, errObj "username é obrigatório")
  | some bdy =>
    match bdy.getField "username", bdy.getField "password" with
    | some uj, some pj =>
      match db.users.find? (fun u => jvalStrMatch uj u.username) with
      | some u =>
        if env.checkpw (jvalToStr pj) u.passwordHash then
          (200, JVal.obj [("user_id", JVal.n u.id)])
        else
          (401, errObj "Invalid username or password")
      | none => (401, errObj "Invalid username or password")
    | _, _ => (400, errObj "username é obrigatório")

/-- POST `/register` (lines 408-438). -/
def postRegister (env : Env) (db : DB) (body : Option JVal) : Nat × JVal × DB :=
  match body with
  | none => (400, errObj "username and password are required", db)
  | some bdy =>
    match bdy.getField "username", bdy.getField "password" with
    | some uj, some pj =>
      match db.users.find? (fun u => jvalStrMatch uj u.username) with
      | some _ => (409, errObj "Username already exists", db)
      | none =>
        let nu : DBUser := ⟨db.nextUserId, jvalToStr uj, env.hashpw (jvalToStr pj)⟩
        (201,
         JVal.obj [("user_id", JVal.n nu.id), ("message", JVal.s "User created successfully")],
         { db with users := db.users ++ [nu], nextUserId := db.nextUserId + 1 })
    | _, _ => (400, errObj "username and password are required", db)

/-- GET `/chats?userId=` (lines 440-471). -/
def getChats (db : DB) (path : String) : Nat × JVal :=
  match findQueryParam path "userId" with
  | none => (400, errObj "userId query parameter é obrigatório")
  | some uid =>
    if uid = "" then (400, errObj "userId query parameter é obrigatório")
    else
      match db.users.find? (fun u => natMatchesStr u.id uid) with
      | some u =>
        let chats := (userGroupRecs db u).map (fun g =>
          JVal.obj [("id", JVal.n g.id), ("name", JVal.s g.name),
            ("members", JVal.arr ((groupMemberRecs db g).map (fun m =>
              JVal.obj [("id", JVal.n m.id), ("username", JVal.s m.username)])))])
        (200, JVal.obj [("user_id", JVal.n u.id), ("chats", JVal.arr chats)])
      | none => (404, errObj "Usuário não encontrado")

/-- GET `/messages?groupId=` (lines 473-504).  Timestamps are not modelled,
so the per-message `timestamp` field is omitted from the body. -/
def getMessagesRoute (db : DB) (path : String) : Nat × JVal :=
  match findQueryParam path "groupId" with
  | none => (400, errObj "groupId query parameter é obrigatório")
  | some gid =>
    if gid = "" then (400, errObj "groupId query parameter é obrigatório")
    else
      match db.groups.find? (fun g => natMatchesStr g.id gid) with
      | some g =>
        let msgs := (db.messages.filter (fun m => m.groupId == g.id)).map (fun m =>
          JVal.obj [("id", JVal.n m.id), ("sender", JVal.s (senderName db m)),
            ("content", JVal.s m.content)])
        (200, JVal.obj [("group_id", JVal.n g.id), ("messages", JVal.arr msgs)])
      | none => (404, errObj "Grupo não encontrado")

/-- The user referenced by the `userId` field of a POST `/messages` body. -/
def msgBodyUser (db : DB) (bdy : JVal) : Option DBUser :=
  match bdy.getField "userId" with
  | some uj => db.users.find? (fun u => jvalIdMatch uj u.id)
  | none => none

/-- The group referenced by the `groupId` field of a POST `/messages` body. -/
def msgBodyGroup (db : DB) (bdy : JVal) : Option GroupRec :=
  match bdy.getField "groupId" with
  | some gj => db.groups.find? (fun g => jvalIdMatch gj g.id)
  | none => none

/-- The `content` field of a POST `/messages` body, as stored text. -/
def msgBodyContent (bdy : JVal) : String :=
  match bdy.getField "content" with
  | some cj => jvalToStr cj
  | none => ""

/-- The `not body or not all(k in body for k in ('userId','groupId','content'))`
validation of POST `/messages`. -/
def hasMsgFields : Option JVal → Bool
  | none => false
  | some bdy =>
    (bdy.getField "userId").isSome && (bdy.getField "groupId").isSome &&
      (bdy.getField "content").isSome

/-- POST `/messages` (lines 506-526): validates the three fields, looks up
user and group, calls `add_message` (database.py lines 117-122) and
`notify_group_of_change(group.name)` (lines 1194-1199). -/
def postMessages (db : DB) (body : Option JVal) : Nat × JVal × DB × List Wake :=
  match body with
  | none => (400, errObj "userId, groupId e content são obrigatórios", db, [])
  | some bdy =>
    if hasMsgFields (some bdy) then
      match msgBodyUser db bdy, msgBodyGroup db bdy with
      | some u, some g =>
        let newMsg : MessageRec := ⟨db.nextMsgId, u.id, g.id, msgBodyContent bdy⟩
        (200, msgObj "Mensagem enviada",
         { db with messages := db.messages ++ [newMsg], nextMsgId := db.nextMsgId + 1 },
         [Wake.group g.name])
      | _, _ => (404, errObj "Usuário ou grupo não encontrado", db, [])
    else
      (400, errObj "userId, groupId e content são obrigatórios", db, [])

/-- GET `/group-users?groupId=` (lines 528-551). -/
def getGroupUsers (db : DB) (path : String) : Nat × JVal :=
  match findQueryParam path "groupId" with
  | none => (400, errObj "groupId query parameter é obrigatório")
  | some gid =>
    if gid = "" then (400, errObj "groupId query parameter é obrigatório")
    else
      match db.groups.find? (fun g => natMatchesStr g.id gid) with
      | some g =>
        let users := (groupMemberRecs db g).map (fun u =>
          JVal.obj [("id", JVal.n u.id), ("username", JVal.s u.username)])
        (200, JVal.obj [("group_id", JVal.n g.id), ("users", JVal.arr users)])
      | none => (404, errObj "Grupo não encontrado")

/-- GET `/users` (lines 553-572).  The route only fires on the exact path
`/users`, so the `'?' in path` filter extraction never finds a filter; the
dead `ilike` filter is modelled faithfully anyway. -/
def getUsersRoute (db : DB) (path : String) : Nat × JVal :=
  let filtroNome := findQueryParam path "username"
  let selected :=
    match filtroNome with
    | some f =>
      if f = "" then db.users
      else db.users.filter (fun u =>
        subOccurs (f.data.map Char.toLower) (u.username.data.map Char.toLower))
    | none => db.users
  (200, JVal.obj [("users", JVal.arr (selected.map (fun u =>
    JVal.obj [("id", JVal.n u.id), ("username", JVal.s u.username)])))])

/-- DELETE `/messages` (lines 574-591). -/
def deleteMessages (db : DB) (body : Option JVal) : Nat × JVal × DB :=
  match body with
  | none => (400, errObj "messageId é obrigatório", db)
  | some bdy =>
    match bdy.getField "messageId" with
    | none => (400, errObj "messageId é obrigatório", db)
    | some mj =>
      match db.messages.find? (fun m => jvalIdMatch mj m.id) with
      | some m =>
        (200, msgObj "Mensagem removida",
         { db with messages := db.messages.filter (fun x => !(x.id == m.id)) })
      | none => (404, errObj "Mensagem não encontrada", db)

/-- Member processing loop of POST `/create-chat` (lines 622-636): walks the
`members` list, skipping the creator's username, appending found users that
are not already members, and collecting usernames that were not found.
Returns the final member list (creator first) and the not-found names. -/
def processMembers (db : DB) (creatorName : String) :
    List DBUser → List JVal → List DBUser × List String
  | current, [] => (current, [])
  | current, j :: rest =>
    if jvalStrMatch j creatorName then processMembers db creatorName current rest
    else
      match db.users.find? (fun u => jvalStrMatch j u.username) with
      | some mu =>
        if current.any (fun u => u.id == mu.id) then
          processMembers db creatorName current rest
        else
          processMembers db creatorName (current ++ [mu]) rest
      | none =>
        let (fin, nf) := processMembers db creatorName current rest
        (fin, jvalToStr j :: nf)

/-- POST `/create-chat` (lines 593-658).  The duplicate-group-name check is
commented out in the source; groups with repeated names can be created. -/
def postCreateChat (db : DB) (body : Option JVal) : Nat × JVal × DB :=
  match body with
  | none => (400, errObj "groupName and creatorId are required", db)
  | some bdy =>
    if (bdy.getField "groupName").isSome && (bdy.getField "creatorId").isSome then
      match (bdy.getField "creatorId").bind
          (fun cj => db.users.find? (fun u => jvalIdMatch cj u.id)) with
      | none => (404, errObj "Creator user not found", db)
      | some creator =>
        let gname := jvalToStr ((bdy.getField "groupName").getD (JVal.s ""))
        let gid := db.nextGroupId
        let items := match bdy.getField "members" with
          | some (JVal.arr l) => l
          | _ => []
        let (members, notFound) := processMembers db creator.username [creator] items
        let baseResp : List (String × JVal) :=
          [("group_id", JVal.n gid), ("group_name", JVal.s gname),
           ("creator_id", JVal.n creator.id),
           ("members", JVal.arr (members.map (fun m =>
             JVal.obj [("id", JVal.n m.id), ("username", JVal.s m.username)])))]
        let resp := if notFound.isEmpty then JVal.obj baseResp
          else JVal.obj (baseResp ++
            [("warning", JVal.s ("Users not found: " ++ String.intercalate ", " notFound))])
        (200, resp,
         { db with groups := db.groups ++ [⟨gid, gname⟩],
                   memberships := db.memberships ++ members.map (fun m => (m.id, gid)),
                   nextGroupId := db.nextGroupId + 1 })
    else (400, errObj "groupName and creatorId are required", db)

/-! ## Long-polling routes (src/main.py lines 709-814, 1077-1134) -/

/-- Query `get_user_groups` (lines 947-962): group names of the user with the given
id (query strings are compared against integer ids by the database layer);
the empty list when no such user exists. -/
def getUserGroups (db : DB) (userId : String) : List String :=
  match db.users.find? (fun u => natMatchesStr u.id userId) with
  | some u => (userGroupRecs db u).map (fun g => g.name)
  | none => []

/-- Last `n` elements in order (the `order_by desc / limit / reversed` dance
of lines 782-796 yields the chronologically last ten messages). -/
def lastN (n : Nat) (l : List MessageRec) : List MessageRec :=
  l.drop (l.length - n)

/-- The `recent_messages` body of a notified `/subscribe/user` poll
(lines 775-798); timestamps omitted. -/
def recentMessages (db : DB) (groupName : String) : List JVal :=
  match db.groups.find? (fun g => g.name == groupName) with
  | some g =>
    (lastN 10 (db.messages.filter (fun m => m.groupId == g.id))).map (fun m =>
      JVal.obj [("id", JVal.n m.id), ("sender", JVal.s (senderName db m)),
        ("content", JVal.s m.content), ("group_id", JVal.n m.groupId),
        ("group_name", JVal.s g.name)])
  | none => []

/-- Wait `wait_for_user_group_notifications` (lines 1077-1134).  Returns the
source's `(notified, notified_group, user_group_list)` triple, the registry
after the per-group `get_or_create_group_condition` calls, and the blocking
bound: the empty-group path returns immediately (bound 0) while the other
path blocks on `notification_event.wait(timeout)` (bound = timeout).  The
`env.userWait` oracle names the group whose notification arrived, if any;
only a group actually waited on can set the shared container. -/
def waitForUserGroupNotifications (env : Env) (registry : List String) (db : DB)
    (userId : String) (timeout : Nat) :
    (Bool × Option String × List String) × List String × Nat :=
  let userGroupList := getUserGroups db userId
  if userGroupList.isEmpty then
    ((false, none, []), registry, 0)
  else
    let registry' := userGroupList.foldl getOrCreateGroupCondition registry
    let notifiedGroup :=
      match env.userWait with
      | some g => if g ∈ userGroupList then some g else none
      | none => none
    ((notifiedGroup.isSome, notifiedGroup, userGroupList), registry', timeout)

/-- GET `/subscribe/status` (lines 709-745). -/
def subscribeStatusRoute (env : Env) (st : ServerState) (path : String) : Outcome :=
  let groupName := (findQueryParam path "group").getD "default"
  let registry' := getOrCreateGroupCondition st.registry groupName
  if env.statusWait then
    { state := { st with registry := registry' }, status := 200,
      body := some (JVal.obj
        [("status", JVal.s (if st.sys.alive then "alive" else "down")),
         ("active", JVal.b st.sys.active), ("change", JVal.b true),
         ("group", JVal.s groupName)]),
      wakes := [], waitBound := 25 }
  else
    { state := { st with registry := registry' }, status := 204,
      body := none, wakes := [], waitBound := 25 }

/-- GET `/subscribe/user` (lines 746-814). -/
def subscribeUserRoute (env : Env) (st : ServerState) (path : String) : Outcome :=
  match findQueryParam path "user_id" with
  | none =>
    { state := st, status := 400,
      body := some (errObj "user_id parameter is required"), wakes := [], waitBound := 0 }
  | some uid =>
    if uid = "" then
      { state := st, status := 400,
        body := some (errObj "user_id parameter is required"), wakes := [], waitBound := 0 }
    else
      let ((notified, notifiedGroup, userGroupList), registry', bound) :=
        waitForUserGroupNotifications env st.registry st.db uid 25
      if notified then
        let recent := match notifiedGroup with
          | some g => recentMessages st.db g
          | none => []
        { state := { st with registry := registry' }, status := 200,
          body := some (JVal.obj
            [("change", JVal.b true), ("user_id", JVal.s uid),
             ("notified_group", match notifiedGroup with
               | some g => JVal.s g
               | none => JVal.b false),
             ("user_groups", JVal.arr (userGroupList.map JVal.s)),
             ("recent_messages", JVal.arr recent),
             ("messages_count", JVal.n recent.length)]),
          wakes := [], waitBound := bound }
      else
        { state := { st with registry := registry' }, status := 204,
          body := none, wakes := [], waitBound := bound }

/-! ## State-transition and notification routes (src/main.py lines 687-703, 824-860) -/

/-- GET `/health` (lines 687-699). -/
def healthResponse (sys : SysState) : Nat × JVal :=
  ((if sys.alive then 200 else 503),
   JVal.obj [("status", JVal.s (if sys.alive then "alive" else "down")),
             ("active", JVal.b sys.active)])

/-- POST `/fall` (lines 825-829): `set_is_alive(False)` then
`set_is_active(False)`; the response reads `get_is_active()` afterwards. -/
def postFall (sys : SysState) : SysState × List Wake × JVal :=
  let (s1, w1) := setIsAlive sys false
  let (s2, w2) := setIsActive s1 false
  (s2, w1 ++ w2,
   JVal.obj [("status", JVal.s "system down"), ("active", JVal.b s2.active)])

/-- POST `/revive` (lines 830-833): `set_is_alive(True)` only. -/
def postRevive (sys : SysState) : SysState × List Wake × JVal :=
  let (s1, w1) := setIsAlive sys true
  (s1, w1,
   JVal.obj [("status", JVal.s "system revived"), ("active", JVal.b s1.active)])

/-- POST `/notify/...` (lines 834-850): `path.split('/')`, require at least
three parts, then notify all groups for target `all` and the single target
group otherwise. -/
def postNotify (path : String) : Nat × JVal × List Wake :=
  let pathParts := splitChar '/' path.data
  if pathParts.length ≥ 3 then
    let target : String := ⟨pathParts.getD 2 []⟩
    if target = "all" then
      (200, msgObj "notification sent to all groups", [Wake.all])
    else
      (200, msgObj ("notification sent to group " ++ target), [Wake.group target])
  else
    (400, errObj "Invalid notify path. Use /notify/{group_name} or /notify/all", [])

/-! ## Router (src/main.py lines 377-915) -/

/-- The shared fallback of the unhandled-route branches (lines 815-823,
852-858, 898-905, 907-914). -/
def fallbackResponse (sys : SysState) : Nat × JVal :=
  if sys.alive && sys.active then (404, errObj "Not Found")
  else (503, errObj "system not available")

/-- The route-dispatch if/elif chain of `handle_client`, in source order.
Only the two subscribe routes touch the group registry; only `/fall`,
`/revive`, `/notify/...` and POST `/messages` record notify effects. -/
def routeRequest (env : Env) (st : ServerState) (req : Request) : Outcome :=
  if req.method = "POST" ∧ req.path = "/login" then
    let (c, b) := postLogin env st.db req.body
    ⟨st, c, some b, [], 0⟩
  else if req.method = "POST" ∧ req.path = "/register" then
    let (c, b, db') := postRegister env st.db req.body
    ⟨{ st with db := db' }, c, some b, [], 0⟩
  else if req.method = "GET" ∧ strStartsWith req.path "/chats" then
    let (c, b) := getChats st.db req.path
    ⟨st, c, some b, [], 0⟩
  else if req.method = "GET" ∧ strStartsWith req.path "/messages" then
    let (c, b) := getMessagesRoute st.db req.path
    ⟨st, c, some b, [], 0⟩
  else if req.method = "POST" ∧ req.path = "/messages" then
    let (c, b, db', w) := postMessages st.db req.body
    ⟨{ st with db := db' }, c, some b, w, 0⟩
  else if req.method = "GET" ∧ strStartsWith req.path "/group-users" then
    let (c, b) := getGroupUsers st.db req.path
    ⟨st, c, some b, [], 0⟩
  else if req.method = "GET" ∧ req.path = "/users" then
    let (c, b) := getUsersRoute st.db req.path
    ⟨st, c, some b, [], 0⟩
  else if req.method = "DELETE" ∧ req.path = "/messages" then
    let (c, b, db') := deleteMessages st.db req.body
    ⟨{ st with db := db' }, c, some b, [], 0⟩
  else if req.method = "POST" ∧ req.path = "/create-chat" then
    let (c, b, db') := postCreateChat st.db req.body
    ⟨{ st with db := db' }, c, some b, [], 0⟩
  else if req.method = "DELETE" ∧ req.path = "/messages" then
    -- duplicate branch at lines 660-678, unreachable after the one above
    let (c, b, db') := deleteMessages st.db req.body
    ⟨{ st with db := db' }, c, some b, [], 0⟩
  else if req.method = "GET" then
    if req.path = "/" then
      ⟨st, 200, some (JVal.s "Render Sanity check!"), [], 0⟩
    else if req.path = "/health" then
      let (c, b) := healthResponse st.sys
      ⟨st, c, some b, [], 0⟩
    else if req.path = "/home" then
      ⟨st, 200, some (JVal.s "<html> <body>Chat</body> </html>"), [], 0⟩
    else if strStartsWith req.path "/subscribe/status" then
      subscribeStatusRoute env st req.path
    else if strStartsWith req.path "/subscribe/user" then
      subscribeUserRoute env st req.path
    else
      let (c, b) := fallbackResponse st.sys
      ⟨st, c, some b, [], 0⟩
  else if req.method = "POST" then
    if req.path = "/fall" then
      let (s', w, b) := postFall st.sys
      ⟨{ st with sys := s' }, 200, some b, w, 0⟩
    else if req.path = "/revive" then
      let (s', w, b) := postRevive st.sys
      ⟨{ st with sys := s' }, 200, some b, w, 0⟩
    else if strStartsWith req.path "/notify/" then
      let (c, b, w) := postNotify req.path
      ⟨st, c, some b, w, 0⟩
    else
      let (c, b) := fallbackResponse st.sys
      ⟨st, c, some b, [], 0⟩
  else if req.method = "OPTIONS" then
    ⟨st, 200, none, [], 0⟩
  else if req.method = "HEAD" then
    if req.path = "/health" then
      ⟨st, (if st.sys.alive then 200 else 503), none, [], 0⟩
    else if req.path = "/" then
      if st.sys.alive && st.sys.active then
        ⟨st, 200, none, [], 0⟩
      else
        ⟨st, 503, some (errObj "system not available"), [], 0⟩
    else
      let (c, b) := fallbackResponse st.sys
      ⟨st, c, some b, [], 0⟩
  else
    let (c, b) := fallbackResponse st.sys
    ⟨st, c, some b, [], 0⟩

/-- Dispatch of `handle_client`'s request handling after parsing: middleware gate first,
then routing; a blocked request is answered without running any handler. -/
def handleRequest (env : Env) (st : ServerState) (req : Request) : Outcome :=
  match middlewareResponse st.sys req.method req.path with
  | some (c, b) => ⟨st, c, some b, [], 0⟩
  | none => routeRequest env st req

/-! ## Raw request parsing (src/main.py lines 183-242, 917-920)

Only the request-line portion of `parse_http_request` is relevant to the
claims; header and JSON-body parsing feed `req.body`, which theorems supply
directly. -/

/-- Python `raw.split('\r\n')[0]`. -/
def takeUntilCRLF : List Char → List Char
  | [] => []
  | '\r' :: '\n' :: _ => []
  | x :: xs => x :: takeUntilCRLF xs

/-- The request-line validation of `parse_http_request` (lines 200-209):
an empty first line or fewer than three space-separated parts raises
`ValueError`; otherwise method and path are the first two parts. -/
def parseHttpRequest (raw : String) : Except String (String × String) :=
  let firstLine := takeUntilCRLF raw.data
  if firstLine.isEmpty then
    Except.error "Empty request data"
  else
    let parts := splitChar ' ' firstLine
    if parts.length < 3 then
      Except.error "Invalid HTTP request line"
    else
      Except.ok (⟨parts.getD 0 []⟩, ⟨parts.getD 1 []⟩)

/-- Wrapper of `handle_client` around the parse: a `ValueError` from parsing is answered
with 400 `{"error": "Bad Request"}` (lines 917-920) and no route handler
runs. -/
def handleRaw (env : Env) (st : ServerState) (raw : String) : Outcome :=
  match parseHttpRequest raw with
  | Except.error _ => ⟨st, 400, some (errObj "Bad Request"), [], 0⟩
  | Except.ok (m, p) => handleRequest env st ⟨m, p, none⟩

/-! ## Sample fixtures used by witnesses and concrete theorems -/

/-- Sample collaborators: bcrypt is replaced by plain-text comparison
(checkpw succeeds iff the password equals the stored hash), no wait is ever
notified. -/
def envEx : Env := ⟨fun p h => p == h, fun p => p, false, none⟩

/-- Sample database: one user `alice` (id 1) in one group `g1` (id 1). -/
def dbEx : DB := ⟨[⟨1, "alice", "pw1"⟩], [⟨1, "g1"⟩], [(1, 1)], [], 2, 2, 1⟩

/-- Sample server state: alive and active, empty registry. -/
def stEx : ServerState := ⟨⟨true, true⟩, [], dbEx⟩

/-! ## Claims -/

/-- Claim C1: one tick of the Failover Coordinator with a peer URL configured
changes the `active` flag exactly as the spec's case analysis prescribes:
not-alive-and-active forces inactive; peer-active with self active and
non-primary yields; peer-inactive with self inactive promotes; peer query
failure with self inactive promotes; every other combination leaves `active`
unchanged.  `syncTickClaim` is the spec-side transition written from the
claim's words; the embedded `syncTick` agrees with it on all inputs. -/
theorem sync_tick_matches_claim :
    ∀ (isMePrimary alive active : Bool) (peer : Option Bool),
      syncTick isMePrimary alive active peer = syncTickClaim isMePrimary alive active peer := by
  decide

/-- Claim C4: from any server state, POST `/fall` followed by GET `/health`
yields 503 with body `{status:"down", active:false}`; a subsequent POST
`/revive` followed by GET `/health` yields 200 with `{status:"alive",
active:v}` where `v` is the state's current active flag, and revive leaves
`active` exactly as `/fall` left it (it sets only `alive`). -/
theorem fall_revive_health_cycle (env : Env) (st : ServerState) :
    let afterFall := (handleRequest env st ⟨"POST", "/fall", none⟩).state
    let healthDown := handleRequest env afterFall ⟨"GET", "/health", none⟩
    let afterRevive := (handleRequest env healthDown.state ⟨"POST", "/revive", none⟩).state
    let healthUp := handleRequest env afterRevive ⟨"GET", "/health", none⟩
    healthDown.status = 503 ∧
    healthDown.body = some (JVal.obj [("status", JVal.s "down"), ("active", JVal.b false)]) ∧
    healthUp.status = 200 ∧
    healthUp.body = some (JVal.obj
      [("status", JVal.s "alive"), ("active", JVal.b afterRevive.sys.active)]) ∧
    afterRevive.sys.active = afterFall.sys.active := by
  obtain ⟨⟨al, ac⟩, reg, db⟩ := st
  cases al <;> cases ac <;> exact ⟨rfl, rfl, rfl, rfl, rfl⟩

/-- Claim C5: `set_is_alive`/`set_is_active` compare old and new value under
the lock; a write of the value already held leaves the state unchanged and
triggers no broadcast, while a changing write updates the flag and triggers
exactly one broker-wide notify; in particular POST `/revive` on an
already-alive system records no broadcast at all. -/
theorem setter_compare_and_notify (s : SysState) (v : Bool) :
    (s.alive = v → setIsAlive s v = (s, [])) ∧
    (s.alive ≠ v → setIsAlive s v = ({ s with alive := v }, [Wake.all])) ∧
    (s.active = v → setIsActive s v = (s, [])) ∧
    (s.active ≠ v → setIsActive s v = ({ s with active := v }, [Wake.all])) ∧
    (∀ (env : Env) (st : ServerState), st.sys.alive = true →
      (handleRequest env st ⟨"POST", "/revive", none⟩).wakes = []) := by
  refine ⟨?_, ?_, ?_, ?_, ?_⟩
  · obtain ⟨a, c⟩ := s; cases a <;> cases c <;> cases v <;> simp [setIsAlive]
  · obtain ⟨a, c⟩ := s; cases a <;> cases c <;> cases v <;> simp [setIsAlive]
  · obtain ⟨a, c⟩ := s; cases a <;> cases c <;> cases v <;> simp [setIsActive]
  · obtain ⟨a, c⟩ := s; cases a <;> cases c <;> cases v <;> simp [setIsActive]
  · intro env st h
    obtain ⟨⟨al, ac⟩, reg, db⟩ := st
    simp only at h
    subst h
    cases ac <;> rfl

/-- Witness for `setter_compare_and_notify` at concrete states: an
already-equal write is silent, a changing write broadcasts once, and
`/revive` on an alive system is broadcast-free. -/
theorem setter_compare_and_notify_witness :
    setIsAlive ⟨true, false⟩ true = (⟨true, false⟩, []) ∧
    setIsAlive ⟨false, false⟩ true = (⟨true, false⟩, [Wake.all]) ∧
    (handleRequest envEx ⟨⟨true, false⟩, [], dbEx⟩ ⟨"POST", "/revive", none⟩).wakes = [] :=
  ⟨(setter_compare_and_notify ⟨true, false⟩ true).1 rfl,
   (setter_compare_and_notify ⟨false, false⟩ true).2.1 (by decide),
   (setter_compare_and_notify ⟨true, false⟩ true).2.2.2.2 envEx ⟨⟨true, false⟩, [], dbEx⟩ rfl⟩

/-- Claim C9, counterexample: the claim asserts the server actually emits 201
from successful POST `/register`, but `/register` appears in no middleware
allow-list, so even a well-formed registration of a fresh username on an
alive-and-active system is blocked with 404 before the register handler runs
(the database is untouched), and 201 is never emitted. -/
theorem register_unreachable_counterexample :
    (handleRequest envEx stEx ⟨"POST", "/register",
      some (JVal.obj [("username", JVal.s "bob"), ("password", JVal.s "p")])⟩).status = 404 ∧
    (handleRequest envEx stEx ⟨"POST", "/register",
      some (JVal.obj [("username", JVal.s "bob"), ("password", JVal.s "p")])⟩).state = stEx ∧
    (404 : Nat) ≠ 201 :=
  ⟨rfl, rfl, by decide⟩

/-- Claim C9, amended: the status-code table covers only
{200, 204, 400, 404, 500, 503}, and 201, 401 and 409 all format with reason
phrase "Unknown Status".  Of those, the server actually emits only 401 (from
failed POST `/login`); the 201 and 409 branches of POST `/register` compute
those codes but are unreachable because the middleware blocks `/register`
(absent from every allow-list) with 404 (alive and active) or 503. -/
theorem http_status_table_amended :
    HTTP_STATUS_CODES.map Prod.fst = [200, 400, 404, 500, 503, 204] ∧
    statusMessage 201 = "Unknown Status" ∧
    statusMessage 401 = "Unknown Status" ∧
    statusMessage 409 = "Unknown Status" ∧
    statusLine 401 = "HTTP/1.1 401 Unknown Status" ∧
    (handleRequest envEx stEx ⟨"POST", "/login",
      some (JVal.obj [("username", JVal.s "alice"), ("password", JVal.s "wrong")])⟩).status = 401 ∧
    (postRegister envEx dbEx
      (some (JVal.obj [("username", JVal.s "bob"), ("password", JVal.s "p")]))).1 = 201 ∧
    (postRegister envEx dbEx
      (some (JVal.obj [("username", JVal.s "alice"), ("password", JVal.s "p")]))).1 = 409 ∧
    (handleRequest envEx stEx ⟨"POST", "/register",
      some (JVal.obj [("username", JVal.s "bob"), ("password", JVal.s "p")])⟩).status = 404 ∧
    (handleRequest envEx ⟨⟨true, false⟩, [], dbEx⟩ ⟨"POST", "/register",
      some (JVal.obj [("username", JVal.s "bob"), ("password", JVal.s "p")])⟩).status = 503 :=
  ⟨rfl, rfl, rfl, rfl, rfl, rfl, rfl, rfl, rfl, rfl⟩

/-- Claim C2: for every request whose base path is outside the always-allowed
set {`/health`, `/fall`, `/revive`} and whose method is not OPTIONS, the
middleware answers 503 "not alive" when `alive` is false, 503 "not active"
when alive but not active, 404 exactly when alive, active and the path
matches no known route, and lets known routes through; concretely, with
`alive = false`, GET `/chats?userId=1` gets 503 with no state change and no
notification effect (no handler side effect). -/
theorem middleware_gate (sys : SysState) (method path : String)
    (hbp : basePath path ∉ alwaysAllowedPaths) (hm : method ≠ "OPTIONS") :
    (sys.alive = false →
      middlewareResponse sys method path =
        some (503, errObj "system not available - not alive")) ∧
    (sys.alive = true → sys.active = false →
      middlewareResponse sys method path =
        some (503, errObj "system not available - not active")) ∧
    (sys.alive = true → sys.active = true →
      (middlewareResponse sys method path = some (404, errObj "Not Found") ↔
        middlewareKnownRoute path = false)) ∧
    (sys.alive = true → sys.active = true → middlewareKnownRoute path = true →
      middlewareResponse sys method path = none) ∧
    (∀ (env : Env) (st : ServerState), st.sys.alive = false →
      handleRequest env st ⟨"GET", "/chats?userId=1", none⟩ =
        ⟨st, 503, some (errObj "system not available - not alive"), [], 0⟩) := by
  obtain ⟨al, ac⟩ := sys
  have hm' : (method != "OPTIONS") = true := by simpa [bne_iff_ne] using hm
  refine ⟨?_, ?_, ?_, ?_, ?_⟩
  · intro h
    simp only at h; subst h
    simp [middlewareResponse, isAllowedByMiddleware, hbp, hm']
  · intro h1 h2
    simp only at h1 h2; subst h1; subst h2
    simp [middlewareResponse, isAllowedByMiddleware, hbp, hm']
  · intro h1 h2
    simp only at h1 h2; subst h1; subst h2
    cases hk : middlewareKnownRoute path <;>
      simp [middlewareResponse, isAllowedByMiddleware, hbp, hm', hk]
  · intro h1 h2 hk
    simp only at h1 h2; subst h1; subst h2
    simp [middlewareResponse, isAllowedByMiddleware, hbp, hm', hk]
  · intro env st h
    obtain ⟨⟨al', ac'⟩, reg, db⟩ := st
    simp only at h; subst h
    cases ac' <;> rfl

/-- Witness for `middleware_gate`: the not-alive gate on GET
`/chats?userId=1` at a concrete dead state. -/
theorem middleware_gate_witness :
    middlewareResponse ⟨false, false⟩ "GET" "/chats?userId=1" =
      some (503, errObj "system not available - not alive") ∧
    handleRequest envEx ⟨⟨false, false⟩, [], dbEx⟩ ⟨"GET", "/chats?userId=1", none⟩ =
      ⟨⟨⟨false, false⟩, [], dbEx⟩, 503, some (errObj "system not available - not alive"), [], 0⟩ :=
  ⟨(middleware_gate ⟨false, false⟩ "GET" "/chats?userId=1" (by decide) (by decide)).1 rfl,
   (middleware_gate ⟨false, false⟩ "GET" "/chats?userId=1" (by decide)
      (by decide)).2.2.2.2 envEx ⟨⟨false, false⟩, [], dbEx⟩ rfl⟩

/-- Reduction of the dispatcher at POST `/messages` on an alive-and-active
state: the middleware lets the request through and the route branch fires. -/
theorem handle_post_messages (env : Env) (reg : List String) (db : DB) (body : Option JVal) :
    handleRequest env ⟨⟨true, true⟩, reg, db⟩ ⟨"POST", "/messages", body⟩ =
      (match postMessages db body with
       | (c, b, db', w) => ⟨⟨⟨true, true⟩, reg, db'⟩, c, some b, w, 0⟩) := rfl

/-- Claim C3: on an alive-and-active system, POST `/messages` whose body has
all of `userId`, `groupId`, `content` with both user and group existing
appends the message, records exactly one `notifyGroup` with the group's name
and answers 200 `{message}`; a body missing any of the three fields answers
400 and a body whose user or group is not found answers 404, in both cases
with the database unchanged and no group notified. -/
theorem post_messages_contract (env : Env) (st : ServerState)
    (halive : st.sys.alive = true) (hactive : st.sys.active = true) :
    (∀ (bdy : JVal) (u : DBUser) (g : GroupRec),
      msgBodyUser st.db bdy = some u → msgBodyGroup st.db bdy = some g →
      (bdy.getField "content").isSome = true →
      handleRequest env st ⟨"POST", "/messages", some bdy⟩ =
        ⟨{ st with db := { st.db with
             messages := st.db.messages ++ [⟨st.db.nextMsgId, u.id, g.id, msgBodyContent bdy⟩],
             nextMsgId := st.db.nextMsgId + 1 } },
         200, some (msgObj "Mensagem enviada"), [Wake.group g.name], 0⟩) ∧
    (∀ body : Option JVal, hasMsgFields body = false →
      handleRequest env st ⟨"POST", "/messages", body⟩ =
        ⟨st, 400, some (errObj "userId, groupId e content são obrigatórios"), [], 0⟩) ∧
    (∀ bdy : JVal, hasMsgFields (some bdy) = true →
      (msgBodyUser st.db bdy = none ∨ msgBodyGroup st.db bdy = none) →
      handleRequest env st ⟨"POST", "/messages", some bdy⟩ =
        ⟨st, 404, some (errObj "Usuário ou grupo não encontrado"), [], 0⟩) := by
  obtain ⟨⟨al, ac⟩, reg, db⟩ := st
  simp only at halive hactive
  subst halive; subst hactive
  refine ⟨?_, ?_, ?_⟩
  · intro bdy u g hu hg hc
    have hfu : (bdy.getField "userId").isSome = true := by
      unfold msgBodyUser at hu
      cases hgf : bdy.getField "userId" <;> rw [hgf] at hu <;> simp_all
    have hfg : (bdy.getField "groupId").isSome = true := by
      unfold msgBodyGroup at hg
      cases hgf : bdy.getField "groupId" <;> rw [hgf] at hg <;> simp_all
    have hfields : hasMsgFields (some bdy) = true := by
      simp [hasMsgFields, hfu, hfg, hc]
    have hpm : postMessages db (some bdy) =
        (200, msgObj "Mensagem enviada",
         { db with
             messages := db.messages ++ [⟨db.nextMsgId, u.id, g.id, msgBodyContent bdy⟩],
             nextMsgId := db.nextMsgId + 1 },
         [Wake.group g.name]) := by
      simp only [postMessages]
      rw [hfields, hu, hg]
      simp
    rw [handle_post_messages, hpm]
  · intro body h2
    cases body with
    | none => rw [handle_post_messages]; rfl
    | some bdy =>
      have hpm : postMessages db (some bdy) =
          (400, errObj "userId, groupId e content são obrigatórios", db, []) := by
        simp only [postMessages]
        rw [h2]
        simp
      rw [handle_post_messages, hpm]
  · intro bdy hf hor
    have hpm : postMessages db (some bdy) =
        (404, errObj "Usuário ou grupo não encontrado", db, []) := by
      simp only [postMessages]
      rw [hf]
      rcases hor with h | h
      · cases hb : msgBodyGroup db bdy <;> simp [h, hb]
      · cases ha : msgBodyUser db bdy <;> simp [h, ha]
    rw [handle_post_messages, hpm]

/-- Witness for `post_messages_contract`: in the sample database, a full
body from `alice` to `g1` stores the message and notifies `g1`; a body
missing `content` gets 400; an unknown user gets 404. -/
theorem post_messages_contract_witness :
    handleRequest envEx stEx ⟨"POST", "/messages",
        some (JVal.obj [("userId", JVal.n 1), ("groupId", JVal.n 1), ("content", JVal.s "oi")])⟩ =
      ⟨⟨⟨true, true⟩, [], { dbEx with
          messages := [⟨1, 1, 1, "oi"⟩], nextMsgId := 2 }⟩,
       200, some (msgObj "Mensagem enviada"), [Wake.group "g1"], 0⟩ ∧
    handleRequest envEx stEx ⟨"POST", "/messages",
        some (JVal.obj [("userId", JVal.n 1), ("groupId", JVal.n 1)])⟩ =
      ⟨stEx, 400, some (errObj "userId, groupId e content são obrigatórios"), [], 0⟩ ∧
    handleRequest envEx stEx ⟨"POST", "/messages",
        some (JVal.obj [("userId", JVal.n 9), ("groupId", JVal.n 1), ("content", JVal.s "oi")])⟩ =
      ⟨stEx, 404, some (errObj "Usuário ou grupo não encontrado"), [], 0⟩ :=
  ⟨(post_messages_contract envEx stEx rfl rfl).1
      (JVal.obj [("userId", JVal.n 1), ("groupId", JVal.n 1), ("content", JVal.s "oi")])
      ⟨1, "alice", "pw1"⟩ ⟨1, "g1"⟩ rfl rfl rfl,
   (post_messages_contract envEx stEx rfl rfl).2.1
      (some (JVal.obj [("userId", JVal.n 1), ("groupId", JVal.n 1)])) rfl,
   (post_messages_contract envEx stEx rfl rfl).2.2
      (JVal.obj [("userId", JVal.n 9), ("groupId", JVal.n 1), ("content", JVal.s "oi")])
      rfl (Or.inl rfl)⟩

/-- Claim C7: a raw request whose request line does not split into at least
three space-separated parts makes `parse_http_request` raise (a `BadRequest`
condition), and the connection is answered 400 `{"error": "Bad Request"}`
with the state untouched and no handler effect. -/
theorem bad_request_line (env : Env) (st : ServerState) (raw : String)
    (h : (splitChar ' ' (takeUntilCRLF raw.data)).length < 3) :
    (∃ msg, parseHttpRequest raw = Except.error msg) ∧
    handleRaw env st raw = ⟨st, 400, some (errObj "Bad Request"), [], 0⟩ := by
  by_cases he : (takeUntilCRLF raw.data).isEmpty
  · exact ⟨⟨"Empty request data", by simp [parseHttpRequest, he]⟩,
      by simp [handleRaw, parseHttpRequest, he]⟩
  · exact ⟨⟨"Invalid HTTP request line", by simp [parseHttpRequest, he, h]⟩,
      by simp [handleRaw, parseHttpRequest, he, h]⟩

/-- Witness for `bad_request_line`: the two-token raw request
`"GET /health\r\n\r\n"` is answered 400 without reaching any route. -/
theorem bad_request_line_witness :
    (splitChar ' ' (takeUntilCRLF "GET /health\r\n\r\n".data)).length < 3 ∧
    handleRaw envEx stEx "GET /health\r\n\r\n" =
      ⟨stEx, 400, some (errObj "Bad Request"), [], 0⟩ :=
  ⟨by decide, (bad_request_line envEx stEx "GET /health\r\n\r\n" (by decide)).2⟩

/-- Reduction of the dispatcher at GET `/subscribe/user?user_id=7` on an
alive-and-active state. -/
theorem handle_subscribe_user7 (env : Env) (reg : List String) (db : DB) :
    handleRequest env ⟨⟨true, true⟩, reg, db⟩ ⟨"GET", "/subscribe/user?user_id=7", none⟩ =
      subscribeUserRoute env ⟨⟨true, true⟩, reg, db⟩ "/subscribe/user?user_id=7" := rfl

/-- Claim C10: GET `/subscribe/user?user_id=7` on an alive-and-active system
returns 204 immediately — blocking bound 0, registry untouched — when user 7
belongs to no groups, which includes the case that no user with id 7 exists
(`get_user_groups` of an unknown user is empty); when user 7 has at least one
group and no notification arrives, the handler blocks up to the full
25-second window and then answers 204. -/
theorem subscribe_user_no_groups (env : Env) (st : ServerState)
    (halive : st.sys.alive = true) (hactive : st.sys.active = true) :
    (getUserGroups st.db "7" = [] →
      handleRequest env st ⟨"GET", "/subscribe/user?user_id=7", none⟩ =
        ⟨st, 204, none, [], 0⟩) ∧
    (getUserGroups st.db "7" ≠ [] → env.userWait = none →
      (handleRequest env st ⟨"GET", "/subscribe/user?user_id=7", none⟩).status = 204 ∧
      (handleRequest env st ⟨"GET", "/subscribe/user?user_id=7", none⟩).waitBound = 25) ∧
    (∀ (db : DB) (uid : String),
      db.users.find? (fun u => natMatchesStr u.id uid) = none → getUserGroups db uid = []) := by
  obtain ⟨⟨al, ac⟩, reg, db⟩ := st
  simp only at halive hactive
  subst halive; subst hactive
  refine ⟨?_, ?_, ?_⟩
  · intro h
    rw [handle_subscribe_user7]
    simp only [subscribeUserRoute,
      show findQueryParam "/subscribe/user?user_id=7" "user_id" = some "7" from rfl]
    rw [if_neg (by decide : ¬("7" : String) = "")]
    simp [waitForUserGroupNotifications, h]
  · intro h hw
    rw [handle_subscribe_user7]
    cases hl : getUserGroups db "7" with
    | nil => exact absurd hl h
    | cons a as =>
      simp only [subscribeUserRoute,
        show findQueryParam "/subscribe/user?user_id=7" "user_id" = some "7" from rfl]
      rw [if_neg (by decide : ¬("7" : String) = "")]
      simp [waitForUserGroupNotifications, hl, hw]
  · intro db uid h
    simp [getUserGroups, h]

/-- Sample database for the blocking side of claim C10: user 7 is in `g1`. -/
def db7 : DB := ⟨[⟨7, "bob", "pw7"⟩], [⟨1, "g1"⟩], [(7, 1)], [], 8, 2, 1⟩

/-- Witness for `subscribe_user_no_groups`: against `dbEx` (no user 7) the
poll returns at once with 204; against `db7` (user 7 in one group, no
notification) it answers 204 after the full 25-second bound. -/
theorem subscribe_user_no_groups_witness :
    handleRequest envEx stEx ⟨"GET", "/subscribe/user?user_id=7", none⟩ =
      ⟨stEx, 204, none, [], 0⟩ ∧
    (handleRequest envEx ⟨⟨true, true⟩, [], db7⟩
        ⟨"GET", "/subscribe/user?user_id=7", none⟩).status = 204 ∧
    (handleRequest envEx ⟨⟨true, true⟩, [], db7⟩
        ⟨"GET", "/subscribe/user?user_id=7", none⟩).waitBound = 25 :=
  ⟨(subscribe_user_no_groups envEx stEx rfl rfl).1 rfl,
   ((subscribe_user_no_groups envEx ⟨⟨true, true⟩, [], db7⟩ rfl rfl).2.1
      (by decide) rfl).1,
   ((subscribe_user_no_groups envEx ⟨⟨true, true⟩, [], db7⟩ rfl rfl).2.1
      (by decide) rfl).2⟩

/-! ## Registry growth lemmas (claim C8 support) -/

theorem subset_getOrCreateGroupCondition (reg : List String) (g : String) :
    reg ⊆ getOrCreateGroupCondition reg g := by
  unfold getOrCreateGroupCondition
  split
  · exact List.Subset.refl _
  · exact List.subset_append_left _ _

theorem mem_getOrCreateGroupCondition (reg : List String) (g : String) :
    g ∈ getOrCreateGroupCondition reg g := by
  unfold getOrCreateGroupCondition
  split
  · assumption
  · simp

theorem subset_foldl_getOrCreate (l : List String) (reg : List String) :
    reg ⊆ l.foldl getOrCreateGroupCondition reg := by
  induction l generalizing reg with
  | nil => exact List.Subset.refl _
  | cons a l ih =>
    exact (subset_getOrCreateGroupCondition reg a).trans (ih (getOrCreateGroupCondition reg a))

theorem registry_waitForUser (env : Env) (reg : List String) (db : DB)
    (uid : String) (t : Nat) :
    reg ⊆ (waitForUserGroupNotifications env reg db uid t).2.1 := by
  simp only [waitForUserGroupNotifications]
  by_cases h : (getUserGroups db uid).isEmpty = true
  · rw [if_pos h]
    exact List.Subset.refl _
  · rw [if_neg h]
    exact subset_foldl_getOrCreate _ _

theorem registry_subscribeStatusRoute (env : Env) (st : ServerState) (path : String) :
    st.registry ⊆ (subscribeStatusRoute env st path).state.registry := by
  unfold subscribeStatusRoute
  split <;> exact subset_getOrCreateGroupCondition _ _

theorem registry_subscribeUserRoute (env : Env) (st : ServerState) (path : String) :
    st.registry ⊆ (subscribeUserRoute env st path).state.registry := by
  unfold subscribeUserRoute
  cases hq : findQueryParam path "user_id" with
  | none => exact List.Subset.refl _
  | some uid =>
    dsimp only
    by_cases hu : uid = ""
    · rw [if_pos hu]
      exact List.Subset.refl _
    · rw [if_neg hu]
      rcases hW : waitForUserGroupNotifications env st.registry st.db uid 25 with
        ⟨⟨n, ng, ul⟩, reg2, bound⟩
      have hsub : st.registry ⊆ reg2 := by
        have h2 := registry_waitForUser env st.registry st.db uid 25
        rwa [hW] at h2
      dsimp only
      split <;> exact hsub

/-- Claim C8: the group registry is non-decreasing under every broker
operation reachable from request handling — `get_or_create_group_condition`
only ever adds the referenced group, `notify_clients_of_state_change` never
modifies the registry and wakes nobody when the target group has no
registered wait-set, and no request handled by the dispatcher ever removes a
registry entry. -/
theorem group_registry_monotone :
    (∀ (reg : List String) (g : String),
      reg ⊆ getOrCreateGroupCondition reg g ∧ g ∈ getOrCreateGroupCondition reg g) ∧
    (∀ (reg : List String) (target : Option String),
      (notifyClientsOfStateChange reg target).1 = reg) ∧
    (∀ (reg : List String) (g : String), g ∉ reg →
      (notifyClientsOfStateChange reg (some g)).2 = []) ∧
    (∀ (env : Env) (st : ServerState) (req : Request),
      st.registry ⊆ (handleRequest env st req).state.registry) := by
  refine ⟨fun reg g => ⟨subset_getOrCreateGroupCondition reg g,
      mem_getOrCreateGroupCondition reg g⟩, ?_, ?_, ?_⟩
  · intro reg target
    cases target <;> rfl
  · intro reg g h
    simp [notifyClientsOfStateChange, wokenGroups, h]
  · intro env st req
    unfold handleRequest
    cases hmw : middlewareResponse st.sys req.method req.path with
    | some cb => exact List.Subset.refl _
    | none =>
      show st.registry ⊆ (routeRequest env st req).state.registry

      rw [routeRequest]
      by_cases h1 : req.method = "POST" ∧ req.path = "/login"
      · rw [if_pos h1]
        exact List.Subset.refl _
      rw [if_neg h1]
      by_cases h2 : req.method = "POST" ∧ req.path = "/register"
      · rw [if_pos h2]
        exact List.Subset.refl _
      rw [if_neg h2]
      by_cases h3 : req.method = "GET" ∧ strStartsWith req.path "/chats" = true
      · rw [if_pos h3]
        exact List.Subset.refl _
      rw [if_neg h3]
      by_cases h4 : req.method = "GET" ∧ strStartsWith req.path "/messages" = true
      · rw [if_pos h4]
        exact List.Subset.refl _
      rw [if_neg h4]
      by_cases h5 : req.method = "POST" ∧ req.path = "/messages"
      · rw [if_pos h5]
        exact List.Subset.refl _
      rw [if_neg h5]
      by_cases h6 : req.method = "GET" ∧ strStartsWith req.path "/group-users" = true
      · rw [if_pos h6]
        exact List.Subset.refl _
      rw [if_neg h6]
      by_cases h7 : req.method = "GET" ∧ req.path = "/users"
      · rw [if_pos h7]
        exact List.Subset.refl _
      rw [if_neg h7]
      by_cases h8 : req.method = "DELETE" ∧ req.path = "/messages"
      · rw [if_pos h8]
        exact List.Subset.refl _
      rw [if_neg h8]
      by_cases h9 : req.method = "POST" ∧ req.path = "/create-chat"
      · rw [if_pos h9]
        exact List.Subset.refl _
      rw [if_neg h9]
      by_cases h10 : req.method = "DELETE" ∧ req.path = "/messages"
      · rw [if_pos h10]
        exact List.Subset.refl _
      rw [if_neg h10]
      by_cases hg : req.method = "GET"
      · rw [if_pos hg]
        by_cases d1 : req.path = "/"
        · rw [if_pos d1]
          exact List.Subset.refl _
        rw [if_neg d1]
        by_cases d2 : req.path = "/health"
        · rw [if_pos d2]
          exact List.Subset.refl _
        rw [if_neg d2]
        by_cases d3 : req.path = "/home"
        · rw [if_pos d3]
          exact List.Subset.refl _
        rw [if_neg d3]
        by_cases d4 : strStartsWith req.path "/subscribe/status" = true
        · rw [if_pos d4]
          exact registry_subscribeStatusRoute env st req.path
        rw [if_neg d4]
        by_cases d5 : strStartsWith req.path "/subscribe/user" = true
        · rw [if_pos d5]
          exact registry_subscribeUserRoute env st req.path
        rw [if_neg d5]
        exact List.Subset.refl _
      rw [if_neg hg]
      by_cases hp : req.method = "POST"
      · rw [if_pos hp]
        by_cases e1 : req.path = "/fall"
        · rw [if_pos e1]
          exact List.Subset.refl _
        rw [if_neg e1]
        by_cases e2 : req.path = "/revive"
        · rw [if_pos e2]
          exact List.Subset.refl _
        rw [if_neg e2]
        by_cases e3 : strStartsWith req.path "/notify/" = true
        · rw [if_pos e3]
          exact List.Subset.refl _
        rw [if_neg e3]
        exact List.Subset.refl _
      rw [if_neg hp]
      by_cases ho : req.method = "OPTIONS"
      · rw [if_pos ho]
        exact List.Subset.refl _
      rw [if_neg ho]
      by_cases hh : req.method = "HEAD"
      · rw [if_pos hh]
        by_cases f1 : req.path = "/health"
        · rw [if_pos f1]
          exact List.Subset.refl _
        rw [if_neg f1]
        by_cases f2 : req.path = "/"
        · rw [if_pos f2]
          by_cases g1 : (st.sys.alive && st.sys.active) = true
          · rw [if_pos g1]
            exact List.Subset.refl _
          rw [if_neg g1]
          exact List.Subset.refl _
        rw [if_neg f2]
        exact List.Subset.refl _
      rw [if_neg hh]
      exact List.Subset.refl _

/-- Witness for `group_registry_monotone`: concrete registry growth, a
silent notify on an unregistered group, and a subscribe request that only
extends the registry. -/
theorem group_registry_monotone_witness :
    (["a"] : List String) ⊆ getOrCreateGroupCondition ["a"] "b" ∧
    (notifyClientsOfStateChange ["a"] (some "zzz")).2 = [] ∧
    (["g1"] : List String) ⊆ (handleRequest envEx ⟨⟨true, true⟩, ["g1"], dbEx⟩
      ⟨"GET", "/subscribe/status?group=x", none⟩).state.registry :=
  ⟨(group_registry_monotone.1 ["a"] "b").1,
   group_registry_monotone.2.2.1 ["a"] "zzz" (by decide),
   group_registry_monotone.2.2.2 envEx ⟨⟨true, true⟩, ["g1"], dbEx⟩
     ⟨"GET", "/subscribe/status?group=x", none⟩⟩

/-! ## Notify-path lemmas (claim C6 support) -/

theorem splitChar_ne_nil (c : Char) (l : List Char) : splitChar c l ≠ [] := by
  cases l with
  | nil => simp [splitChar]
  | cons x xs =>
    simp only [splitChar]
    split <;> simp

theorem splitChar_notify (rest : List Char) :
    splitChar '/' ('/' :: 'n' :: 'o' :: 't' :: 'i' :: 'f' :: 'y' :: '/' :: rest) =
      [] :: ['n', 'o', 't', 'i', 'f', 'y'] :: splitChar '/' rest := rfl

/-- Claim C6, counterexample: the claim asserts that some malformed POST
`/notify` path — one naming neither a group nor `all` — is answered 400, but
the closest such request, POST `/notify/` with an empty target segment, is
answered 200 with a `{message}` body (the notify handler is only reachable
for paths starting with `/notify/`, which always split into at least three
segments, so its 400 branch never fires). -/
theorem notify_no_400_counterexample :
    (handleRequest envEx stEx ⟨"POST", "/notify/", none⟩).status = 200 ∧
    (handleRequest envEx stEx ⟨"POST", "/notify/", none⟩).body =
      some (msgObj "notification sent to group ") ∧
    (200 : Nat) ≠ 400 :=
  ⟨rfl, rfl, by decide⟩

/-- Claim C6, amended: no POST `/notify/...` request is ever answered 400 —
every path reaching the notify handler starts with `/notify/` and therefore
splits into at least three `/`-separated segments, so the handler's 400
branch is unreachable and the answer is always 200 with a `{message}` body:
the broker-wide notify (waking every registered group, since a `Wake.all`
wakes exactly the registered groups) when the target segment is `all`, and a
single-group notify for the target segment otherwise; concretely POST
`/notify/all` and POST `/notify/g1` run exactly so through the full
dispatcher. -/
theorem notify_route_amended (path : String) (h : strStartsWith path "/notify/" = true) :
    (postNotify path).1 = 200 ∧
    (∀ reg : List String, wokenGroups reg Wake.all = reg) ∧
    ((⟨(splitChar '/' path.data).getD 2 []⟩ : String) = "all" →
      postNotify path = (200, msgObj "notification sent to all groups", [Wake.all])) ∧
    ((⟨(splitChar '/' path.data).getD 2 []⟩ : String) ≠ "all" →
      postNotify path =
        (200, msgObj ("notification sent to group " ++
            (⟨(splitChar '/' path.data).getD 2 []⟩ : String)),
         [Wake.group ⟨(splitChar '/' path.data).getD 2 []⟩])) ∧
    handleRequest envEx stEx ⟨"POST", "/notify/all", none⟩ =
      ⟨stEx, 200, some (msgObj "notification sent to all groups"), [Wake.all], 0⟩ ∧
    handleRequest envEx stEx ⟨"POST", "/notify/g1", none⟩ =
      ⟨stEx, 200, some (msgObj "notification sent to group g1"), [Wake.group "g1"], 0⟩ := by
  have hpre : "/notify/".data <+: path.data := by
    simp only [strStartsWith] at h
    rwa [ List.isPrefixOf_iff_prefix] at h
  obtain ⟨rest, hrest⟩ := hpre
  have hsplit : splitChar '/' path.data =
      [] :: ['n', 'o', 't', 'i', 'f', 'y'] :: splitChar '/' rest := by
    rw [← hrest]; rfl
  have hlen : (splitChar '/' path.data).length ≥ 3 := by
    rw [hsplit]
    have h1 : 0 < (splitChar '/' rest).length :=
      List.length_pos.mpr (splitChar_ne_nil '/' rest)
    simp only [List.length_cons]
    omega
  refine ⟨?_, fun reg => rfl, ?_, ?_, rfl, rfl⟩
  · simp only [postNotify]
    rw [if_pos hlen]
    split <;> rfl
  · intro ht
    simp only [postNotify]
    rw [if_pos hlen, if_pos ht]
  · intro ht
    simp only [postNotify]
    rw [if_pos hlen, if_neg ht]

/-- Witness for `notify_route_amended`: the concrete path `/notify/g1`
satisfies the prefix hypothesis and is answered 200 with a single-group
notify. -/
theorem notify_route_amended_witness :
    (postNotify "/notify/g1").1 = 200 ∧
    postNotify "/notify/g1" =
      (200, msgObj "notification sent to group g1", [Wake.group "g1"]) :=
  ⟨(notify_route_amended "/notify/g1" (by decide)).1,
   (notify_route_amended "/notify/g1" (by decide)).2.2.2.1 (by decide)⟩

end Bondy
